import Mathlib

/-!
# Verification of the guided-weather-agent dialogue loop

Shallow embedding of the sequential tool-calling dialogue loop of
`src/main.py`, the LLM backend selection of `src/utils.py`, and the
scraping helpers `llm_select_best_location` / `search_for_city` /
`extract_city_weather` of `src/weather_agent.py`.

External effects (the LLM provider, the browser DOM, tool bodies) are
modelled as oracles: the model's successive responses are a script
(a `List AIResponse`), tool execution is a function
`String → String → Except String String` (`.error` models a raised
Python exception), and DOM interactions are `Except`-valued arguments.
-/

namespace WeatherAgentSpec

/-- A model-issued tool-call request: tool name, structured arguments
(kept opaque as a string), and the correlation identifier
(`tool_call_id`). -/
structure ToolCall where
  name : String
  args : String
  id : String
deriving Repr, DecidableEq

/-- The fields of a langchain `AIMessage` that `main.py` reads or copies:
`content`, `tool_calls`, `additional_kwargs`, `response_metadata`, `id`.
The two kwargs/metadata dicts are opaque payloads here. -/
structure AIResponse where
  content : String
  tool_calls : List ToolCall
  additional_kwargs : String
  response_metadata : String
  id : String
deriving Repr, DecidableEq

/-- A conversation message: user text, an assistant response (possibly
carrying tool calls), or a tool result (`ToolMessage`): correlation id
plus string payload. -/
inductive Message where
  | user (content : String)
  | assistant (resp : AIResponse)
  | toolResult (tool_call_id : String) (payload : String)
deriving Repr, DecidableEq

/-- `CustomState` of `main.py`: the message sequence (langgraph
`MessagesState`, append-only via the `add_messages` reducer) plus the
`gathering_mode` flag. -/
structure CustomState where
  messages : List Message
  gathering_mode : Bool
deriving Repr, DecidableEq

/-- The single-tool-call enforcement of the `assistant` node
(`main.py` lines 68-78): if the model response proposes more than one
tool call, rebuild the `AIMessage` with only the first tool call,
copying `content`, `additional_kwargs`, `response_metadata` and `id`;
otherwise the response is kept as is. -/
def assistantResponse (r : AIResponse) : AIResponse :=
  if r.tool_calls.length > 1 then
    { content := r.content
      tool_calls := r.tool_calls.take 1
      additional_kwargs := r.additional_kwargs
      response_metadata := r.response_metadata
      id := r.id }
  else r

/-- The state update performed by the `assistant` node (`main.py`
lines 64-83) on model response `r`: append the (possibly truncated)
response and set `gathering_mode` to `bool(response.tool_calls)`. -/
def assistantStep (r : AIResponse) (s : CustomState) : CustomState :=
  { messages := s.messages ++ [Message.assistant (assistantResponse r)]
    gathering_mode := !(assistantResponse r).tool_calls.isEmpty }

/-- Modelled from the spec: langgraph's prebuilt `ToolNode` is not part
of this repository's sources; per the spec, any fault raised by a tool
capability during invocation is caught at the loop boundary and turned
into a `ToolResult` payload describing the failure. `invoke` is the
registered capability dispatch; a `.error e` outcome models a raised
exception and is wrapped into an error payload. -/
def toolNode (invoke : String → String → Except String String)
    (c : ToolCall) : Message :=
  match invoke c.name c.args with
  | Except.ok r => Message.toolResult c.id r
  | Except.error e => Message.toolResult c.id ("Error: " ++ e)

/-- Modelled from the spec: exact-match lookup of a tool call's name in
the registered capability set; an unresolvable name is a fault surfaced
as an error describing the attempted name, not a process-level failure. -/
def registryInvoke (registered : List String)
    (run : String → String → Except String String)
    (name args : String) : Except String String :=
  if registered.contains name then run name args
  else Except.error (name ++ " is not a valid tool.")

/-- Modelled from the spec: langgraph's `tools_condition` routes to the
`tools` node exactly when the last message carries at least one tool
call, and otherwise ends the graph run. -/
def tools_condition (s : CustomState) : Bool :=
  match s.messages.getLast? with
  | some (Message.assistant r) => !r.tool_calls.isEmpty
  | _ => false

/-- Modelled from the spec: the `tools` node executes every tool call of
the last assistant message (after truncation there is at most one) and
appends one `ToolResult` per call; `gathering_mode` is untouched. -/
def toolStep (invoke : String → String → Except String String)
    (s : CustomState) : CustomState :=
  match s.messages.getLast? with
  | some (Message.assistant r) =>
      { s with messages := s.messages ++ r.tool_calls.map (toolNode invoke) }
  | _ => s

/-- Result of running the compiled graph on one user turn: the final
state, the list of tool calls that were actually executed, and the
model response that ended the turn (none if the model script was
exhausted while still requesting tools). -/
structure RunResult where
  state : CustomState
  invoked : List ToolCall
  final : Option AIResponse
deriving Repr, DecidableEq

/-- The dialogue loop compiled by `builder` in `main.py`
(START → assistant; assistant → tools when `tools_condition` fires,
else END; tools → assistant), driven by the script of successive model
responses. -/
def runLoop (invoke : String → String → Except String String) :
    List AIResponse → CustomState → RunResult
  | [], s => ⟨s, [], none⟩
  | r :: rest, s =>
    let s1 := assistantStep r s
    if tools_condition s1 then
      let res := runLoop invoke rest (toolStep invoke s1)
      ⟨res.state, (assistantResponse r).tool_calls ++ res.invoked, res.final⟩
    else
      ⟨s1, [], some (assistantResponse r)⟩

/-! ## The CLI read-eval loop (`main.py` lines 101-125) -/

/-- Python `str.strip()`: drop whitespace from both ends
(character-list model, whitespace per `Char.isWhitespace`). -/
def pyStrip (s : String) : String :=
  ⟨((s.data.dropWhile Char.isWhitespace).reverse.dropWhile
      Char.isWhitespace).reverse⟩

/-- Python `str.lower()` (ASCII model, `Char.toLower` per character). -/
def pyLower (s : String) : String :=
  ⟨s.data.map Char.toLower⟩

/-- The exit test of the REPL:
`user_input.strip().lower() in {"exit", "quit"}`. -/
def isExitInput (input : String) : Bool :=
  let t := pyLower (pyStrip input)
  t == "exit" || t == "quit"

/-- The state handed to `graph.invoke` each turn:
`{"messages": messages, "gathering_mode": True}`. -/
def graphInput (messages : List Message) : CustomState :=
  ⟨messages, true⟩

/-- The `AIMessage(content=...)` the REPL appends after a turn: content
only, no tool calls. -/
def plainAI (content : String) : AIResponse :=
  ⟨content, [], "", "", ""⟩

/-- `response["messages"][-1].content`: the content of the last message
of the graph result. -/
def lastContent (msgs : List Message) : String :=
  match msgs.getLast? with
  | some (Message.user c) => c
  | some (Message.assistant r) => r.content
  | some (Message.toolResult _ p) => p
  | none => ""

/-- What one REPL iteration makes observable: the farewell line on
exit, the rendered answer panel, the "No response from agent." line, or
an uncaught exception terminating the process. -/
inductive ReplEvent where
  | farewell
  | answer (content : String)
  | noResponse
  | crash (e : String)
deriving Repr, DecidableEq

/-- Outcome of one REPL iteration: the observable event, the CLI-level
`messages` list afterwards, and whether the loop reaches the next
`Prompt.ask` (false on `break` and on an uncaught exception). -/
structure ReplStepResult where
  event : ReplEvent
  messages : List Message
  alive : Bool
deriving Repr, DecidableEq

/-- One iteration of the `while True` loop of `main.py`:
exit/quit prints the farewell and breaks; otherwise the user message is
appended and `graph.invoke` is called. There is no try/except around
`graph.invoke`, so a `.error` outcome (a raised exception) propagates
out of the loop and kills the process. On success, the final content is
appended as an `AIMessage` and rendered, or "No response from agent."
is printed when the content is empty. -/
def replStep (graphCall : CustomState → Except String CustomState)
    (msgs : List Message) (input : String) : ReplStepResult :=
  if isExitInput input then
    ⟨ReplEvent.farewell, msgs, false⟩
  else
    let msgs1 := msgs ++ [Message.user input]
    match graphCall (graphInput msgs1) with
    | Except.error e => ⟨ReplEvent.crash e, msgs1, false⟩
    | Except.ok st =>
        let c := lastContent st.messages
        let msgs2 := msgs1 ++ [Message.assistant (plainAI c)]
        if c ≠ "" then ⟨ReplEvent.answer c, msgs2, true⟩
        else ⟨ReplEvent.noResponse, msgs2, true⟩

/-- The whole REPL on a sequence of user inputs: the list of observable
events. Processing stops after an iteration whose `alive` flag is false
(exit break or uncaught exception). -/
def runRepl (graphCall : CustomState → Except String CustomState) :
    List String → List Message → List ReplEvent
  | [], _ => []
  | input :: rest, msgs =>
    let r := replStep graphCall msgs input
    if r.alive then r.event :: runRepl graphCall rest r.messages
    else [r.event]

/-- A graph oracle that never raises: each turn runs the dialogue loop
on a model script, starting from the turn's messages with
`gathering_mode = True`. -/
def graphOk (invoke : String → String → Except String String)
    (script : List AIResponse) : CustomState → Except String CustomState :=
  fun s => Except.ok (runLoop invoke script s).state

/-! ## LLM backend selection (`src/utils.py`) -/

/-- Which client `setup_llm` returns. -/
inductive LLMBackend where
  | azure
  | openai
deriving Repr, DecidableEq

/-- The environment variables `setup_llm` reads; `none` models an unset
variable (`os.getenv` returning `None`). -/
structure LLMEnv where
  azure_endpoint : Option String
  azure_api_key : Option String
  openai_api_key : Option String
deriving Repr, DecidableEq

/-- Python truthiness of an `os.getenv` result: unset and empty-string
values are falsy. -/
def truthy : Option String → Bool
  | none => false
  | some s => s ≠ ""

/-- `setup_llm` of `src/utils.py`: Azure when both Azure variables are
truthy, else OpenAI when the OpenAI key is truthy, else a raised
`ValueError` with the configuration message. -/
def setup_llm (env : LLMEnv) : Except String LLMBackend :=
  if truthy env.azure_endpoint && truthy env.azure_api_key then
    Except.ok LLMBackend.azure
  else if truthy env.openai_api_key then
    Except.ok LLMBackend.openai
  else
    Except.error
      "Either AZURE_OPENAI_ENDPOINT + AZURE_OPENAI_API_KEY or OPENAI_API_KEY must be provided"

/-! ## Location selection and weather extraction (`src/weather_agent.py`) -/

/-- Left-to-right non-overlapping replacement for Python
`str.replace` (character-list model, fuel-indexed for structural
recursion; faithful for non-empty patterns, the only case the source
uses). -/
def replaceFuel (pat rep : List Char) : Nat → List Char → List Char
  | _, [] => []
  | 0, l => l
  | fuel + 1, c :: cs =>
    if pat ≠ [] ∧ pat.isPrefixOf (c :: cs) then
      rep ++ replaceFuel pat rep fuel (List.drop (pat.length - 1) cs)
    else c :: replaceFuel pat rep fuel cs

/-- Python `s.replace(pat, rep)` (character-list model). -/
def pyReplace (s pat rep : String) : String :=
  ⟨replaceFuel pat.data rep.data s.data.length s.data⟩

/-- No two consecutive underscores in a digit run (Python `int()`
rejects `"1__2"`). -/
def noDoubleUnderscore : List Char → Bool
  | '_' :: '_' :: _ => false
  | _ :: rest => noDoubleUnderscore rest
  | [] => true

/-- A valid unsigned digit run for Python `int()`: non-empty, digits
with optional single underscores strictly between digits. -/
def okDigitRun (cs : List Char) : Bool :=
  !cs.isEmpty
    && cs.all (fun c => c.isDigit || c == '_')
    && (match cs.head? with | some c => c.isDigit | none => false)
    && (match cs.getLast? with | some c => c.isDigit | none => false)
    && noDoubleUnderscore cs

/-- Numeric value of a digit run with its underscores removed. -/
def digitsVal (cs : List Char) : Nat :=
  (cs.filter (fun c => c != '_')).foldl (fun a c => a * 10 + (c.toNat - 48)) 0

/-- Python `int(s)` on a string (ASCII model): strips whitespace,
accepts an optional sign and a digit run with single interior
underscores; `none` models a raised `ValueError`. -/
def parsePyInt (s : String) : Option Int :=
  match (pyStrip s).toList with
  | '+' :: rest => if okDigitRun rest then some (Int.ofNat (digitsVal rest)) else none
  | '-' :: rest => if okDigitRun rest then some (-(Int.ofNat (digitsVal rest))) else none
  | cs => if okDigitRun cs then some (Int.ofNat (digitsVal cs)) else none

/-- One entry of the `location_options` list built by `search_for_city`:
the option's index among the result buttons and its cleaned text (the
DOM element handle is not modelled). -/
structure LocationOption where
  index : Nat
  text : String
deriving Repr, DecidableEq

/-- `WeatherAgent.llm_select_best_location`: ask the model to pick an
option by number; return the picked option when the reply's stripped
content parses as an integer within `[1, len(location_options)]`,
otherwise (model exception `.error`, `ValueError` on parse, or
out-of-range number) fall back to the first option, or `None` for an
empty list. `llmResult` is the oracle for `setup_llm()` plus
`llm.invoke(prompt)`; `.error` models a raised exception. -/
def llm_select_best_location (llmResult : Except String String)
    (location_options : List LocationOption) : Option LocationOption :=
  match llmResult with
  | Except.error _ => location_options.head?
  | Except.ok content =>
    match parsePyInt (pyStrip content) with
    | none => location_options.head?
    | some n =>
      if 1 ≤ n ∧ n ≤ (location_options.length : Int) then
        location_options[(n - 1).toNat]?
      else location_options.head?

/-- The `location_options` construction of `search_for_city`: for each
result button, drop the "Save Location" caption, strip, and keep the
non-empty texts with their original indices. -/
def buildLocationOptions (texts : List String) : List LocationOption :=
  texts.enum.filterMap fun p =>
    let lt := pyStrip (pyReplace p.2 "Save Location" "")
    if lt = "" then none else some ⟨p.1, lt⟩

/-- `WeatherAgent.search_for_city`: any exception during the DOM steps
(`domResult = .error`) is caught and yields `None`; an empty result
list yields `None`; otherwise the AI selection runs and its result (or
`None`) is returned. `domResult` is the oracle for the search-bar
interaction, delivering the raw texts of the result buttons. -/
def search_for_city (domResult : Except String (List String))
    (llmResult : Except String String) (city_name : String) :
    Option LocationOption :=
  match domResult with
  | Except.error _ => none
  | Except.ok texts =>
    if texts.isEmpty then none
    else llm_select_best_location llmResult (buildLocationOptions texts)

/-- `WeatherAgent.extract_city_weather`: returns the scraped markdown,
or `""` whenever the city search produces no selection or any exception
is raised while clicking, navigating, or converting the page
(`navResult = .error`). `navResult` is the oracle for the
click/navigate/markdownify steps, delivering the markdown page text. -/
def extract_city_weather (domResult : Except String (List String))
    (llmResult : Except String String) (navResult : Except String String)
    (city_name : String) (page : String) : String :=
  match search_for_city domResult llmResult city_name with
  | none => ""
  | some _ =>
    match navResult with
    | Except.error _ => ""
    | Except.ok markdown_page => markdown_page

/-! ## Concrete sample data (used by witnesses) -/

/-- A call to the registered `get_events_for_date` capability. -/
def callEvents : ToolCall :=
  ⟨"get_events_for_date", "2026-10-12", "call_1"⟩

/-- A call to the registered `extract_city_weather` capability. -/
def callWeather : ToolCall :=
  ⟨"extract_city_weather", "Paris", "call_2"⟩

/-- A model response proposing two tool calls at once. -/
def respTwoCalls : AIResponse :=
  ⟨"", [callEvents, callWeather], "kw", "md", "run-1"⟩

/-- A model response proposing exactly one tool call. -/
def respOneCall : AIResponse :=
  ⟨"", [callEvents], "kw", "md", "run-2"⟩

/-- A tool-call-free final answer. -/
def respFinal : AIResponse :=
  ⟨"It is sunny.", [], "kw2", "md2", "run-3"⟩

/-- A tool dispatch that always succeeds. -/
def invokeOk : String → String → Except String String :=
  fun _ _ => Except.ok "3 events"

/-- A tool dispatch that always raises. -/
def invokeFail : String → String → Except String String :=
  fun _ _ => Except.error "division by zero"

/-- A turn state holding one user message, in gathering mode. -/
def stateU : CustomState :=
  ⟨[Message.user "hello"], true⟩

/-! ## Helper lemmas -/

/-- After the assistant node runs, `tools_condition` fires exactly when
the (possibly truncated) response carries a tool call. -/
theorem tools_condition_assistantStep (r : AIResponse) (s : CustomState) :
    tools_condition (assistantStep r s) = !(assistantResponse r).tool_calls.isEmpty := by
  simp [tools_condition, assistantStep]

/-- Effect of the tools node right after the assistant node: one
`ToolResult` appended per tool call of the truncated response, with
`gathering_mode` untouched. -/
theorem toolStep_assistantStep
    (invoke : String → String → Except String String)
    (r : AIResponse) (s : CustomState) :
    toolStep invoke (assistantStep r s) =
      ⟨s.messages ++ [Message.assistant (assistantResponse r)]
         ++ (assistantResponse r).tool_calls.map (toolNode invoke),
       !(assistantResponse r).tool_calls.isEmpty⟩ := by
  simp [toolStep, assistantStep]

/-- Truncation keeps a response with few tool calls unchanged. -/
theorem assistantResponse_short (r : AIResponse)
    (h : r.tool_calls.length ≤ 1) : assistantResponse r = r := by
  simp [assistantResponse]
  omega

/-- The dialogue loop only ever appends to the message sequence. -/
theorem runLoop_messages_extend
    (invoke : String → String → Except String String)
    (script : List AIResponse) (s : CustomState) :
    ∃ t, (runLoop invoke script s).state.messages = s.messages ++ t := by
  induction script generalizing s with
  | nil => exact ⟨[], by simp [runLoop]⟩
  | cons r rest ih =>
    by_cases hc : tools_condition (assistantStep r s) = true
    · obtain ⟨t, ht⟩ := ih (toolStep invoke (assistantStep r s))
      refine ⟨[Message.assistant (assistantResponse r)]
          ++ (assistantResponse r).tool_calls.map (toolNode invoke) ++ t, ?_⟩
      simp only [runLoop, hc, if_true]
      rw [ht, toolStep_assistantStep]
      simp
    · refine ⟨[Message.assistant (assistantResponse r)], ?_⟩
      simp only [runLoop, hc, if_false, Bool.false_eq_true]
      simp [assistantStep]

/-! ## Claims -/

/-- C1: for every model response proposing N ≥ 2 tool calls, the
assistant node truncates the response to exactly the first proposed
call, preserving `content`, `additional_kwargs`, `response_metadata`
and `id`, and the dialogue loop executes exactly that one call for the
turn — the remaining N − 1 proposed calls are never invoked on this
iteration. -/
theorem c1_single_tool_call_enforcement (r : AIResponse)
    (h : 2 ≤ r.tool_calls.length)
    (invoke : String → String → Except String String)
    (rest : List AIResponse) (s : CustomState) :
    (assistantResponse r).content = r.content ∧
    (assistantResponse r).additional_kwargs = r.additional_kwargs ∧
    (assistantResponse r).response_metadata = r.response_metadata ∧
    (assistantResponse r).id = r.id ∧
    (assistantResponse r).tool_calls = r.tool_calls.take 1 ∧
    (assistantResponse r).tool_calls.length = 1 ∧
    (runLoop invoke (r :: rest) s).invoked =
      r.tool_calls.take 1
        ++ (runLoop invoke rest (toolStep invoke (assistantStep r s))).invoked := by
  have hgt : r.tool_calls.length > 1 := by omega
  have htr : (assistantResponse r).tool_calls = r.tool_calls.take 1 := by
    simp [assistantResponse, hgt]
  have hlen : (assistantResponse r).tool_calls.length = 1 := by
    rw [htr]; simp; omega
  have hne : (assistantResponse r).tool_calls.isEmpty = false := by
    cases hcs : (assistantResponse r).tool_calls with
    | nil => rw [hcs] at hlen; simp at hlen
    | cons a as => rfl
  have hcond : tools_condition (assistantStep r s) = true := by
    rw [tools_condition_assistantStep, hne]; rfl
  refine ⟨by simp [assistantResponse, hgt], by simp [assistantResponse, hgt],
    by simp [assistantResponse, hgt], by simp [assistantResponse, hgt],
    htr, hlen, ?_⟩
  simp only [runLoop, hcond, if_true]
  rw [htr]

/-- C2: the message sequence is append-only across a run of the
dialogue loop, and for the concrete scenario — a model that first
requests `get_events_for_date` once and then answers without tool
calls — the resulting state is exactly
[User, Assistant(with 1 call), ToolResult, Assistant(final, no call)]. -/
theorem c2_append_only_scenario :
    (∀ (invoke : String → String → Except String String)
       (script : List AIResponse) (s : CustomState),
       ∃ t, (runLoop invoke script s).state.messages = s.messages ++ t) ∧
    (∀ (u : String) (c : ToolCall) (r1 r2 : AIResponse)
       (invoke : String → String → Except String String) (res : String),
       r1.tool_calls = [c] → c.name = "get_events_for_date" →
       r2.tool_calls = [] → invoke c.name c.args = Except.ok res →
       (runLoop invoke [r1, r2] ⟨[Message.user u], true⟩).state.messages =
         [Message.user u, Message.assistant r1,
          Message.toolResult c.id res, Message.assistant r2]) := by
  constructor
  · exact runLoop_messages_extend
  · intro u c r1 r2 invoke res h1 hname h2 hok
    have e1 : assistantResponse r1 = r1 := assistantResponse_short r1 (by simp [h1])
    have e2 : assistantResponse r2 = r2 := assistantResponse_short r2 (by simp [h2])
    simp only [runLoop, tools_condition_assistantStep, e1, e2, h1, h2,
      List.isEmpty_cons, List.isEmpty_nil, Bool.not_false, Bool.not_true,
      if_true, Bool.false_eq_true, if_false]
    rw [toolStep_assistantStep]
    simp [assistantStep, e1, e2, h1, h2, toolNode, hok]

/-- C6: a model response with zero tool calls ends the turn at once:
the loop performs zero tool invocations, the state gains only that
assistant message, the remaining script is never consulted, and the
response's content is surfaced as the final answer (rendered by the
CLI when non-empty). -/
theorem c6_zero_tool_calls (r : AIResponse) (rest : List AIResponse)
    (invoke : String → String → Except String String) (s : CustomState)
    (msgs : List Message) (input : String)
    (h : r.tool_calls = []) (hexit : isExitInput input = false) :
    runLoop invoke (r :: rest) s =
      ⟨⟨s.messages ++ [Message.assistant r], false⟩, [], some r⟩ ∧
    (r.content ≠ "" →
      (replStep (graphOk invoke (r :: rest)) msgs input).event =
        ReplEvent.answer r.content) := by
  have e1 : assistantResponse r = r := assistantResponse_short r (by simp [h])
  have hloop : ∀ s' : CustomState, runLoop invoke (r :: rest) s' =
      ⟨⟨s'.messages ++ [Message.assistant r], false⟩, [], some r⟩ := by
    intro s'
    simp only [runLoop, tools_condition_assistantStep, e1, h,
      List.isEmpty_nil, Bool.not_true, Bool.false_eq_true, if_false]
    simp [assistantStep, e1, h]
  refine ⟨hloop s, fun hc => ?_⟩
  simp [replStep, hexit, graphOk, hloop, lastContent, graphInput, hc]

/-- C3 counterexample: a model-adapter fault is NOT recovered at the
CLI boundary — there is no try/except around `graph.invoke` in the
REPL loop, so a raised provider exception terminates the process: the
iteration ends with a crash, no "no response" report is produced, and
the following inputs (including the exit command) are never read. -/
theorem c3_counterexample :
    replStep (fun _ => Except.error "APIConnectionError") []
        "What is the weather?" =
      ⟨ReplEvent.crash "APIConnectionError",
       [Message.user "What is the weather?"], false⟩ ∧
    runRepl (fun _ => Except.error "APIConnectionError")
        ["What is the weather?", "exit"] [] =
      [ReplEvent.crash "APIConnectionError"] := by
  constructor <;> decide

/-- C3 amended: tool faults are contained within the turn — with any
tool dispatch, including one that raises on every call, a non-exit turn
through the graph keeps the process alive — but a model-adapter fault
is not recovered: it unwinds past the REPL loop and terminates the
process, leaving only the user message of the failed turn appended;
"No response from agent." is reported only when the model's final
answer has empty content (no exception raised). -/
theorem c3_amended (invoke : String → String → Except String String)
    (script : List AIResponse) (msgs : List Message) (input : String)
    (h : isExitInput input = false) :
    (replStep (graphOk invoke script) msgs input).alive = true ∧
    (∀ e, replStep (fun _ => Except.error e) msgs input =
       ⟨ReplEvent.crash e, msgs ++ [Message.user input], false⟩) ∧
    (∀ st, lastContent st.messages = "" →
       replStep (fun _ => Except.ok st) msgs input =
         ⟨ReplEvent.noResponse,
          msgs ++ [Message.user input, Message.assistant (plainAI "")],
          true⟩) := by
  refine ⟨?_, fun e => ?_, fun st hst => ?_⟩
  · simp only [replStep, h, Bool.false_eq_true, if_false, graphOk]
    split <;> rfl
  · simp [replStep, h]
  · simp [replStep, h, hst]

/-- C4: `gathering_mode` starts `True` for a fresh turn (the REPL
invokes the graph with `gathering_mode: True`), is set by the assistant
node to exactly `bool(response.tool_calls)` of the (possibly truncated)
response — `False` iff the response carries no tool call — truncation
never changes whether a tool call is present, and the tools node never
touches the flag: it is mutated exactly once per loop iteration, by the
loop itself. -/
theorem c4_gathering_mode (r : AIResponse) (s : CustomState)
    (invoke : String → String → Except String String) (m : List Message) :
    (graphInput m).gathering_mode = true ∧
    (assistantStep r s).gathering_mode =
      !(assistantResponse r).tool_calls.isEmpty ∧
    ((assistantResponse r).tool_calls = [] →
      (assistantStep r s).gathering_mode = false) ∧
    ((assistantResponse r).tool_calls ≠ [] →
      (assistantStep r s).gathering_mode = true) ∧
    (assistantResponse r).tool_calls.isEmpty = r.tool_calls.isEmpty ∧
    (toolStep invoke s).gathering_mode = s.gathering_mode := by
  refine ⟨rfl, rfl, ?_, ?_, ?_, ?_⟩
  · intro h; simp [assistantStep, h]
  · intro h; simp [assistantStep, List.isEmpty_iff, h]
  · by_cases hgt : r.tool_calls.length > 1
    · cases hcs : r.tool_calls with
      | nil => rw [hcs] at hgt; simp at hgt
      | cons a as =>
        have has : 0 < as.length := by
          rw [hcs] at hgt; simp only [List.length_cons] at hgt; omega
        simp [assistantResponse, hcs, has]
    · rw [assistantResponse_short r (by omega)]
  · unfold toolStep
    split <;> rfl

/-- C5: a fault raised by a tool capability during invocation is caught
at the loop boundary and becomes a `ToolResult` whose payload is a
non-empty error description appended to the conversation; the next
assistant invocation receives that `ToolResult` (it is the last message
of the state the loop continues from) and the loop keeps running; an
unknown tool name likewise yields an error payload naming the attempted
tool. (`toolNode` and `registryInvoke` are modelled from the spec:
langgraph's prebuilt `ToolNode` is not part of this repository's
sources.) -/
theorem c5_tool_fault_contained
    (invoke : String → String → Except String String)
    (c : ToolCall) (e : String) (r : AIResponse)
    (rest : List AIResponse) (s : CustomState)
    (hr : r.tool_calls = [c]) (he : invoke c.name c.args = Except.error e) :
    toolNode invoke c = Message.toolResult c.id ("Error: " ++ e) ∧
    ("Error: " ++ e) ≠ "" ∧
    (toolStep invoke (assistantStep r s)).messages =
      s.messages ++ [Message.assistant r,
        Message.toolResult c.id ("Error: " ++ e)] ∧
    (toolStep invoke (assistantStep r s)).gathering_mode = true ∧
    runLoop invoke (r :: rest) s =
      ⟨(runLoop invoke rest (toolStep invoke (assistantStep r s))).state,
       c :: (runLoop invoke rest (toolStep invoke (assistantStep r s))).invoked,
       (runLoop invoke rest (toolStep invoke (assistantStep r s))).final⟩ ∧
    (∀ (registered : List String)
       (run : String → String → Except String String) (name args : String),
       registered.contains name = false →
       registryInvoke registered run name args =
         Except.error (name ++ " is not a valid tool.")) := by
  have e1 : assistantResponse r = r := assistantResponse_short r (by simp [hr])
  have hcond : tools_condition (assistantStep r s) = true := by
    rw [tools_condition_assistantStep, e1, hr]; rfl
  refine ⟨by simp [toolNode, he], ?_, ?_, ?_, ?_, ?_⟩
  · intro hcontra
    have h0 : ("Error: " ++ e).length = 0 := by rw [hcontra]; rfl
    rw [String.length_append] at h0
    have h7 : "Error: ".length = 7 := by decide
    omega
  · rw [toolStep_assistantStep, e1, hr]
    simp [toolNode, he]
  · rw [toolStep_assistantStep, e1, hr]; rfl
  · simp only [runLoop, hcond, if_true]
    rw [e1, hr]
    rfl
  · intro registered run name args hreg
    simp only [registryInvoke, hreg, Bool.false_eq_true, if_false]

/-- C7: backend selection of `setup_llm` — the enterprise (Azure)
backend is selected whenever both the enterprise endpoint and key are
present (set to a non-empty value, the code's truthiness test),
regardless of the direct key; otherwise a present direct API key
selects the direct (OpenAI) backend; with neither configuration
present, setup raises the descriptive configuration error naming the
required variables. -/
theorem c7_backend_priority (env : LLMEnv) :
    ((truthy env.azure_endpoint && truthy env.azure_api_key) = true →
       setup_llm env = Except.ok LLMBackend.azure) ∧
    ((truthy env.azure_endpoint && truthy env.azure_api_key) = false →
       truthy env.openai_api_key = true →
       setup_llm env = Except.ok LLMBackend.openai) ∧
    ((truthy env.azure_endpoint && truthy env.azure_api_key) = false →
       truthy env.openai_api_key = false →
       setup_llm env = Except.error
         "Either AZURE_OPENAI_ENDPOINT + AZURE_OPENAI_API_KEY or OPENAI_API_KEY must be provided") := by
  refine ⟨fun h => ?_, fun h1 h2 => ?_, fun h1 h2 => ?_⟩ <;>
    simp [setup_llm, *]

/-- C8: `llm_select_best_location` is selection with deterministic
fallback — the model-chosen option is returned when the reply's
stripped content parses as an integer within `[1, len(options)]`; on
any fault (model exception, unparseable reply, out-of-range number) the
first option is returned; an empty options list yields `None` in every
case. -/
theorem c8_selection_with_fallback (llmResult : Except String String)
    (opts : List LocationOption) :
    (opts = [] → llm_select_best_location llmResult opts = none) ∧
    (∀ c n, llmResult = Except.ok c → parsePyInt (pyStrip c) = some n →
       1 ≤ n → n ≤ (opts.length : Int) →
       ∃ opt, opts[(n - 1).toNat]? = some opt ∧
         llm_select_best_location llmResult opts = some opt) ∧
    (∀ x xs e, opts = x :: xs → llmResult = Except.error e →
       llm_select_best_location llmResult opts = some x) ∧
    (∀ x xs c, opts = x :: xs → llmResult = Except.ok c →
       parsePyInt (pyStrip c) = none →
       llm_select_best_location llmResult opts = some x) ∧
    (∀ x xs c n, opts = x :: xs → llmResult = Except.ok c →
       parsePyInt (pyStrip c) = some n →
       ¬(1 ≤ n ∧ n ≤ (opts.length : Int)) →
       llm_select_best_location llmResult opts = some x) := by
  refine ⟨?_, ?_, ?_, ?_, ?_⟩
  · intro h
    subst h
    cases llmResult with
    | error e => rfl
    | ok c =>
      cases hp : parsePyInt (pyStrip c) with
      | none => simp [llm_select_best_location, hp]
      | some n =>
        simp only [llm_select_best_location, hp]
        split <;> rfl
  · intro c n hc hp h1 h2
    have hlt : (n - 1).toNat < opts.length := by omega
    refine ⟨opts[(n - 1).toNat], by simp [List.getElem?_eq_getElem hlt], ?_⟩
    simp only [llm_select_best_location, hc, hp]
    rw [if_pos ⟨h1, h2⟩]
    simp [List.getElem?_eq_getElem hlt]
  · intro x xs e ho he
    subst ho
    simp [llm_select_best_location, he]
  · intro x xs c ho hc hp
    subst ho
    simp [llm_select_best_location, hc, hp]
  · intro x xs c n ho hc hp hrange
    subst ho
    simp only [llm_select_best_location, hc, hp]
    rw [if_neg hrange]
    rfl

/-- C9: an input whose trimmed, lowercased form is exactly "exit" or
"quit" makes the CLI print the farewell line, break out of the loop and
produce no further output (later inputs are never read); any other
input, when the graph call returns normally, leaves the loop alive and
processing continues with the remaining inputs. -/
theorem c9_exit_command (graphCall : CustomState → Except String CustomState)
    (msgs : List Message) (input : String) (inputs : List String) :
    (isExitInput input = true →
       replStep graphCall msgs input = ⟨ReplEvent.farewell, msgs, false⟩ ∧
       runRepl graphCall (input :: inputs) msgs = [ReplEvent.farewell]) ∧
    (isExitInput input = false →
       ∀ st, graphCall (graphInput (msgs ++ [Message.user input])) =
           Except.ok st →
         (replStep graphCall msgs input).alive = true ∧
         runRepl graphCall (input :: inputs) msgs =
           (replStep graphCall msgs input).event ::
             runRepl graphCall inputs (replStep graphCall msgs input).messages) ∧
    isExitInput input =
      ((pyLower (pyStrip input) == "exit") ||
        (pyLower (pyStrip input) == "quit")) := by
  refine ⟨fun h => ?_, fun h st hok => ?_, rfl⟩
  · have hstep : replStep graphCall msgs input =
        ⟨ReplEvent.farewell, msgs, false⟩ := by
      simp [replStep, h]
    exact ⟨hstep, by simp [runRepl, hstep]⟩
  · have halive : (replStep graphCall msgs input).alive = true := by
      simp only [replStep, h, Bool.false_eq_true, if_false, hok]
      split <;> rfl
    exact ⟨halive, by simp [runRepl, halive]⟩

/-- C10: `extract_city_weather` is total over its failure modes — when
the city search yields no selection, or any exception is raised during
navigation or extraction, it returns the empty string rather than
raising or returning an error description; a failed extraction is
therefore indistinguishable from a successful extraction of genuinely
empty page content. -/
theorem c10_failure_is_empty_string (domResult : Except String (List String))
    (llmResult : Except String String) (navResult : Except String String)
    (city page : String) :
    (search_for_city domResult llmResult city = none →
       extract_city_weather domResult llmResult navResult city page = "") ∧
    (∀ e, navResult = Except.error e →
       extract_city_weather domResult llmResult navResult city page = "") ∧
    (∀ opt, search_for_city domResult llmResult city = some opt →
       ∀ md, navResult = Except.ok md →
         extract_city_weather domResult llmResult navResult city page = md) ∧
    extract_city_weather domResult llmResult (Except.ok "") city page =
      extract_city_weather domResult llmResult (Except.error "exception")
        city page := by
  refine ⟨fun h => ?_, fun e he => ?_, fun opt hopt md hmd => ?_, ?_⟩
  · simp [extract_city_weather, h]
  · cases hs : search_for_city domResult llmResult city <;>
      simp [extract_city_weather, hs, he]
  · simp [extract_city_weather, hopt, hmd]
  · cases hs : search_for_city domResult llmResult city <;>
      simp [extract_city_weather, hs]

/-! ## Witnesses -/

/-- Witness for C1 at a concrete response proposing two tool calls. -/
theorem c1_witness :
    2 ≤ respTwoCalls.tool_calls.length ∧
    ((assistantResponse respTwoCalls).content = respTwoCalls.content ∧
     (assistantResponse respTwoCalls).additional_kwargs =
       respTwoCalls.additional_kwargs ∧
     (assistantResponse respTwoCalls).response_metadata =
       respTwoCalls.response_metadata ∧
     (assistantResponse respTwoCalls).id = respTwoCalls.id ∧
     (assistantResponse respTwoCalls).tool_calls =
       respTwoCalls.tool_calls.take 1 ∧
     (assistantResponse respTwoCalls).tool_calls.length = 1 ∧
     (runLoop invokeOk [respTwoCalls] stateU).invoked =
       respTwoCalls.tool_calls.take 1 ++
         (runLoop invokeOk []
           (toolStep invokeOk (assistantStep respTwoCalls stateU))).invoked) :=
  ⟨by decide,
   c1_single_tool_call_enforcement respTwoCalls (by decide) invokeOk [] stateU⟩

/-- Witness for C2 on the concrete `get_events_for_date` scenario. -/
theorem c2_witness :
    respOneCall.tool_calls = [callEvents] ∧
    callEvents.name = "get_events_for_date" ∧
    respFinal.tool_calls = [] ∧
    invokeOk callEvents.name callEvents.args = Except.ok "3 events" ∧
    (runLoop invokeOk [respOneCall, respFinal]
        ⟨[Message.user "what is on today?"], true⟩).state.messages =
      [Message.user "what is on today?", Message.assistant respOneCall,
       Message.toolResult callEvents.id "3 events",
       Message.assistant respFinal] :=
  ⟨rfl, rfl, rfl, rfl,
   c2_append_only_scenario.2 "what is on today?" callEvents respOneCall
     respFinal invokeOk "3 events" rfl rfl rfl rfl⟩

/-- Witness for the amended C3 at a concrete non-exit input: a turn
with a raising tool dispatch keeps the process alive, while a
model-adapter fault crashes it. -/
theorem c3_amended_witness :
    isExitInput "weather in Paris?" = false ∧
    (replStep (graphOk invokeFail [respOneCall, respFinal]) []
        "weather in Paris?").alive = true ∧
    replStep (fun _ => Except.error "APIError") [] "weather in Paris?" =
      ⟨ReplEvent.crash "APIError",
       [Message.user "weather in Paris?"], false⟩ :=
  ⟨by decide,
   (c3_amended invokeFail [respOneCall, respFinal] [] "weather in Paris?"
       (by decide)).1,
   (c3_amended invokeOk [] [] "weather in Paris?" (by decide)).2.1 "APIError"⟩

/-- Witness for C4 at concrete responses with and without a tool call. -/
theorem c4_witness :
    (assistantResponse respFinal).tool_calls = [] ∧
    (assistantStep respFinal stateU).gathering_mode = false ∧
    (assistantResponse respOneCall).tool_calls ≠ [] ∧
    (assistantStep respOneCall stateU).gathering_mode = true :=
  ⟨by decide,
   (c4_gathering_mode respFinal stateU invokeOk []).2.2.1 (by decide),
   by decide,
   (c4_gathering_mode respOneCall stateU invokeOk []).2.2.2.1 (by decide)⟩

/-- Witness for C5 at a concrete raising tool dispatch. -/
theorem c5_witness :
    respOneCall.tool_calls = [callEvents] ∧
    invokeFail callEvents.name callEvents.args =
      Except.error "division by zero" ∧
    (toolStep invokeFail (assistantStep respOneCall stateU)).messages =
      stateU.messages ++ [Message.assistant respOneCall,
        Message.toolResult callEvents.id ("Error: " ++ "division by zero")] :=
  ⟨rfl, rfl,
   (c5_tool_fault_contained invokeFail callEvents "division by zero"
       respOneCall [] stateU rfl rfl).2.2.1⟩

/-- Witness for C6 at a concrete tool-call-free response. -/
theorem c6_witness :
    respFinal.tool_calls = [] ∧
    isExitInput "tell me" = false ∧
    runLoop invokeOk [respFinal] stateU =
      ⟨⟨stateU.messages ++ [Message.assistant respFinal], false⟩, [],
       some respFinal⟩ ∧
    (replStep (graphOk invokeOk [respFinal]) [] "tell me").event =
      ReplEvent.answer respFinal.content :=
  ⟨rfl, by decide,
   (c6_zero_tool_calls respFinal [] invokeOk stateU [] "tell me"
       rfl (by decide)).1,
   (c6_zero_tool_calls respFinal [] invokeOk stateU [] "tell me"
       rfl (by decide)).2 (by decide)⟩

/-- Witness for C7 at concrete environments for each selection branch. -/
theorem c7_witness :
    setup_llm ⟨some "https://example.azure.com", some "azkey", some "sk-1"⟩ =
      Except.ok LLMBackend.azure ∧
    setup_llm ⟨none, some "azkey", some "sk-1"⟩ =
      Except.ok LLMBackend.openai ∧
    setup_llm ⟨some "https://example.azure.com", none, none⟩ =
      Except.error
        "Either AZURE_OPENAI_ENDPOINT + AZURE_OPENAI_API_KEY or OPENAI_API_KEY must be provided" :=
  ⟨(c7_backend_priority _).1 (by decide),
   (c7_backend_priority _).2.1 (by decide) (by decide),
   (c7_backend_priority _).2.2 (by decide) (by decide)⟩

/-- Witness for C8 at concrete option lists and model replies covering
each branch: empty list, in-range choice, model exception, unparseable
reply, out-of-range number. -/
theorem c8_witness :
    llm_select_best_location (Except.ok "whatever") [] = none ∧
    (∃ opt,
       ([⟨0, "Paris, France"⟩, ⟨1, "Paris, TX"⟩] :
           List LocationOption)[((2 : Int) - 1).toNat]? = some opt ∧
       llm_select_best_location (Except.ok " 2 ")
           [⟨0, "Paris, France"⟩, ⟨1, "Paris, TX"⟩] = some opt) ∧
    llm_select_best_location (Except.error "timeout")
        [⟨0, "Paris, France"⟩, ⟨1, "Paris, TX"⟩] =
      some ⟨0, "Paris, France"⟩ ∧
    llm_select_best_location (Except.ok "the first one")
        [⟨0, "Paris, France"⟩] = some ⟨0, "Paris, France"⟩ ∧
    llm_select_best_location (Except.ok "7") [⟨0, "Paris, France"⟩] =
      some ⟨0, "Paris, France"⟩ :=
  ⟨(c8_selection_with_fallback (Except.ok "whatever") []).1 rfl,
   (c8_selection_with_fallback (Except.ok " 2 ") _).2.1 " 2 " 2 rfl
     (by decide) (by decide) (by decide),
   (c8_selection_with_fallback (Except.error "timeout") _).2.2.1 _ _
     "timeout" rfl rfl,
   (c8_selection_with_fallback (Except.ok "the first one") _).2.2.2.1 _ _
     "the first one" rfl rfl (by decide),
   (c8_selection_with_fallback (Except.ok "7") _).2.2.2.2 _ _ "7" 7
     rfl rfl (by decide) (by decide)⟩

/-- Witness for C9 at a concrete quit input (trimmed, mixed case) and a
concrete ordinary input. -/
theorem c9_witness :
    isExitInput "  QUIT  " = true ∧
    replStep (graphOk invokeOk [respFinal]) [] "  QUIT  " =
      ⟨ReplEvent.farewell, [], false⟩ ∧
    runRepl (graphOk invokeOk [respFinal]) ["  QUIT  ", "later"] [] =
      [ReplEvent.farewell] ∧
    (replStep (graphOk invokeOk [respFinal]) [] "hello there").alive = true :=
  ⟨by decide,
   ((c9_exit_command (graphOk invokeOk [respFinal]) [] "  QUIT  "
       ["later"]).1 (by decide)).1,
   ((c9_exit_command (graphOk invokeOk [respFinal]) [] "  QUIT  "
       ["later"]).1 (by decide)).2,
   ((c9_exit_command (graphOk invokeOk [respFinal]) [] "hello there" []).2.1
       (by decide)
       ((runLoop invokeOk [respFinal]
         (graphInput ([] ++ [Message.user "hello there"]))).state) rfl).1⟩

/-- Witness for C10 at concrete failing searches and navigations. -/
theorem c10_witness :
    search_for_city (Except.error "timeout") (Except.ok "1") "Paris" =
      none ∧
    extract_city_weather (Except.error "timeout") (Except.ok "1")
      (Except.ok "# page") "Paris" "hourbyhour" = "" ∧
    extract_city_weather (Except.ok ["ParisSave Location"]) (Except.ok "1")
      (Except.error "no such element") "Paris" "tenday" = "" :=
  ⟨rfl,
   (c10_failure_is_empty_string (Except.error "timeout") (Except.ok "1")
       (Except.ok "# page") "Paris" "hourbyhour").1 rfl,
   (c10_failure_is_empty_string (Except.ok ["ParisSave Location"])
       (Except.ok "1") (Except.error "no such element") "Paris" "tenday").2.1
     "no such element" rfl⟩

end WeatherAgentSpec

